import Mathlib

/-!
Verification of the computational core of the CrystalFieldSplitting repository:
the crystal-field energy model `calculateSplitting`, the ligand positioning
functions, the d-orbital parametric surface generator, and the energy-level
diagram layout. Arithmetic on JavaScript numbers is modelled exactly: the
energy model and the layout are rational functions of their inputs and are
embedded over ℚ; the geometric functions involve square roots and
trigonometric functions and are embedded over ℝ.
-/

/-- The `GeometryType` union, `octahedral | tetrahedral | squarePlanar`. -/
inductive GeometryType where
  | octahedral
  | tetrahedral
  | squarePlanar
deriving DecidableEq

/-- The string denoted by each `GeometryType` member. -/
def geomStr : GeometryType → String
  | .octahedral => "octahedral"
  | .tetrahedral => "tetrahedral"
  | .squarePlanar => "squarePlanar"

/-- The `EnergyResult` union from `OrbitalSplittingDiagram`:
`OctahedralEnergies | TetrahedralEnergies | SquarePlanarEnergies`. -/
inductive EnergyResult where
  | octahedral (eg t2g splitting : ℚ)
  | squarePlanar (dx2y2 dxy dz2 dxz dyz splitting : ℚ)
  | tetrahedral (t2 e splitting : ℚ)
deriving DecidableEq

/-- The `splitting` field, present in every variant of `EnergyResult`. -/
def EnergyResult.splittingValue : EnergyResult → ℚ
  | .octahedral _ _ s => s
  | .squarePlanar _ _ _ _ _ s => s
  | .tetrahedral _ _ s => s

/-- `calculateSplitting` from `OrbitalSplittingDiagram`. The geometry argument
is a string, matched against the three literals exactly as in the source; an
unrecognized geometry falls through every branch and yields `none`
(`undefined` in the source). The console logging in the source is
diagnostic-only and has no effect on the returned value. -/
def calculateSplitting (geometry : String) (distance ligandStrength : ℚ) :
    Option EnergyResult :=
  let distanceEffect := 1.0 / distance ^ 3
  let base := ligandStrength * distanceEffect
  let distanceScaler := 0.05 + (4.0 - distance) / 3.0 * 0.95
  if geometry = "octahedral" then
    let baseRise := base * distanceScaler * 0.8
    some (.octahedral
      (baseRise + base * distanceScaler * 0.3)
      (baseRise - base * distanceScaler * 0.3)
      (base * distanceScaler * 0.6))
  else if geometry = "squarePlanar" then
    let baseRise := base * distanceScaler * 0.6
    some (.squarePlanar
      (baseRise + base * distanceScaler * 0.4)
      (baseRise + base * distanceScaler * 0.25)
      (baseRise + base * distanceScaler * 0.1)
      (baseRise - base * distanceScaler * 0.5)
      (baseRise - base * distanceScaler * 0.5)
      (base * distanceScaler * 0.9))
  else if geometry = "tetrahedral" then
    let baseRise := base * distanceScaler * 0.7
    some (.tetrahedral
      (baseRise + base * distanceScaler * 0.15)
      (baseRise - base * distanceScaler * 0.15)
      (base * distanceScaler * 0.3))
  else none

/-- The product `base * distanceScaler` shared by all three branches of
`calculateSplitting`. -/
def baseTimesScaler (distance ligandStrength : ℚ) : ℚ :=
  ligandStrength * (1.0 / distance ^ 3) * (0.05 + (4.0 - distance) / 3.0 * 0.95)

lemma calculateSplitting_octahedral (d s : ℚ) :
    calculateSplitting (geomStr .octahedral) d s =
      some (.octahedral
        (baseTimesScaler d s * 0.8 + baseTimesScaler d s * 0.3)
        (baseTimesScaler d s * 0.8 - baseTimesScaler d s * 0.3)
        (baseTimesScaler d s * 0.6)) := rfl

lemma calculateSplitting_squarePlanar (d s : ℚ) :
    calculateSplitting (geomStr .squarePlanar) d s =
      some (.squarePlanar
        (baseTimesScaler d s * 0.6 + baseTimesScaler d s * 0.4)
        (baseTimesScaler d s * 0.6 + baseTimesScaler d s * 0.25)
        (baseTimesScaler d s * 0.6 + baseTimesScaler d s * 0.1)
        (baseTimesScaler d s * 0.6 - baseTimesScaler d s * 0.5)
        (baseTimesScaler d s * 0.6 - baseTimesScaler d s * 0.5)
        (baseTimesScaler d s * 0.9)) := rfl

lemma calculateSplitting_tetrahedral (d s : ℚ) :
    calculateSplitting (geomStr .tetrahedral) d s =
      some (.tetrahedral
        (baseTimesScaler d s * 0.7 + baseTimesScaler d s * 0.15)
        (baseTimesScaler d s * 0.7 - baseTimesScaler d s * 0.15)
        (baseTimesScaler d s * 0.3)) := rfl

/-- On the UI distance range (0, 4] with positive ligand strength, the shared
factor `base * distanceScaler` is strictly positive. -/
lemma baseTimesScaler_pos (d s : ℚ) (hd : 0 < d) (hd4 : d ≤ 4) (hs : 0 < s) :
    0 < baseTimesScaler d s := by
  unfold baseTimesScaler
  have hcube : (0:ℚ) < d ^ 3 := by positivity
  have hscaler : (0:ℚ) < 0.05 + (4.0 - d) / 3.0 * 0.95 := by nlinarith
  have hbase : (0:ℚ) < s * (1.0 / d ^ 3) := by positivity
  exact mul_pos hbase hscaler

/-- C1 counterexample: the claim quantifies over all distance in (0, ∞), but at
distance 5 and ligand strength 6 the distance scaler is negative and the
returned `eg` is strictly below `t2g`, so `eg > t2g` fails as stated. -/
theorem octahedral_ordering_fails_at_distance_five :
    calculateSplitting (geomStr .octahedral) 5 6 =
      some (.octahedral (-44/3125) (-4/625) (-24/3125)) ∧
    (-44/3125 : ℚ) < -4/625 := by
  refine ⟨?_, by norm_num⟩
  rw [calculateSplitting_octahedral]
  simp only [Option.some.injEq, EnergyResult.octahedral.injEq, baseTimesScaler]
  norm_num

/-- C1 (amended): for octahedral geometry, distances in the UI range (0, 4] and
positive ligand strength, `calculateSplitting` returns a result with
`eg > t2g`; the `splitting` field equals `eg - t2g` exactly. -/
theorem octahedral_ordering_and_splitting (d s : ℚ)
    (hd : 0 < d) (hd4 : d ≤ 4) (hs : 0 < s) :
    ∃ eg t2g sp,
      calculateSplitting (geomStr .octahedral) d s = some (.octahedral eg t2g sp) ∧
      t2g < eg ∧ sp = eg - t2g := by
  refine ⟨_, _, _, calculateSplitting_octahedral d s, ?_, by ring⟩
  have h := baseTimesScaler_pos d s hd hd4 hs
  nlinarith

theorem octahedral_ordering_and_splitting_witness :
    (0:ℚ) < 2 ∧ (2:ℚ) ≤ 4 ∧ (0:ℚ) < 6 ∧
    ∃ eg t2g sp,
      calculateSplitting (geomStr .octahedral) 2 6 = some (.octahedral eg t2g sp) ∧
      t2g < eg ∧ sp = eg - t2g :=
  ⟨by norm_num, by norm_num, by norm_num,
    octahedral_ordering_and_splitting 2 6 (by norm_num) (by norm_num) (by norm_num)⟩

/-- C2: for octahedral geometry the code computes
`base = ligandStrength / distance³` and
`scaler = 0.05 + (4 − distance)/3 · 0.95`, returning
`eg = base·scaler·0.8 + base·scaler·0.3`,
`t2g = base·scaler·0.8 − base·scaler·0.3` and
`splitting = base·scaler·0.6`; at distance 2 and ligand strength 6 the result
is exactly (0.56375, 0.25625, 0.3075). -/
theorem octahedral_formula_and_concrete_values :
    (∀ d s : ℚ,
      calculateSplitting (geomStr .octahedral) d s =
        some (.octahedral
          (s / d ^ 3 * (0.05 + (4 - d) / 3 * 0.95) * 0.8 +
            s / d ^ 3 * (0.05 + (4 - d) / 3 * 0.95) * 0.3)
          (s / d ^ 3 * (0.05 + (4 - d) / 3 * 0.95) * 0.8 -
            s / d ^ 3 * (0.05 + (4 - d) / 3 * 0.95) * 0.3)
          (s / d ^ 3 * (0.05 + (4 - d) / 3 * 0.95) * 0.6))) ∧
    calculateSplitting (geomStr .octahedral) 2 6 =
      some (.octahedral 0.56375 0.25625 0.3075) := by
  constructor
  · intro d s
    rw [calculateSplitting_octahedral]
    simp only [Option.some.injEq, EnergyResult.octahedral.injEq, baseTimesScaler]
    refine ⟨by ring, by ring, by ring⟩
  · rw [calculateSplitting_octahedral]
    simp only [Option.some.injEq, EnergyResult.octahedral.injEq, baseTimesScaler]
    norm_num

/-- C3 counterexample: at distance 5 (allowed by the claim, which requires only
distance > 0) and ligand strength 6 the returned `t2` is strictly below `e`,
so `t2 > e` fails as stated. -/
theorem tetrahedral_ordering_fails_at_distance_five :
    calculateSplitting (geomStr .tetrahedral) 5 6 =
      some (.tetrahedral (-34/3125) (-22/3125) (-12/3125)) ∧
    (-34/3125 : ℚ) < -22/3125 := by
  refine ⟨?_, by norm_num⟩
  rw [calculateSplitting_tetrahedral]
  simp only [Option.some.injEq, EnergyResult.tetrahedral.injEq, baseTimesScaler]
  norm_num

/-- C3 (amended): for tetrahedral geometry, distances in the UI range (0, 4]
and positive ligand strength, `calculateSplitting` returns `t2 > e` — the
inverse ordering relative to octahedral, the triply-degenerate set being the
higher one — and `splitting = t2 - e` exactly. -/
theorem tetrahedral_ordering_and_splitting (d s : ℚ)
    (hd : 0 < d) (hd4 : d ≤ 4) (hs : 0 < s) :
    ∃ t2 e sp,
      calculateSplitting (geomStr .tetrahedral) d s = some (.tetrahedral t2 e sp) ∧
      e < t2 ∧ sp = t2 - e := by
  refine ⟨_, _, _, calculateSplitting_tetrahedral d s, ?_, by ring⟩
  have h := baseTimesScaler_pos d s hd hd4 hs
  nlinarith

theorem tetrahedral_ordering_and_splitting_witness :
    (0:ℚ) < 1 ∧ (1:ℚ) ≤ 4 ∧ (0:ℚ) < 3 ∧
    ∃ t2 e sp,
      calculateSplitting (geomStr .tetrahedral) 1 3 = some (.tetrahedral t2 e sp) ∧
      e < t2 ∧ sp = t2 - e :=
  ⟨by norm_num, by norm_num, by norm_num,
    tetrahedral_ordering_and_splitting 1 3 (by norm_num) (by norm_num) (by norm_num)⟩

/-- C4 counterexample: at distance 5 (distance > 0, so a valid input per the
claim) and ligand strength 6 the square planar result has `dx2y2 < dxy`, so
the claimed ordering `dx2y2 ≥ dxy` fails as stated. -/
theorem squarePlanar_ordering_fails_at_distance_five :
    calculateSplitting (geomStr .squarePlanar) 5 6 =
      some (.squarePlanar (-8/625) (-34/3125) (-28/3125) (-4/3125) (-4/3125)
        (-36/3125)) ∧
    (-8/625 : ℚ) < -34/3125 := by
  refine ⟨?_, by norm_num⟩
  rw [calculateSplitting_squarePlanar]
  simp only [Option.some.injEq, EnergyResult.squarePlanar.injEq, baseTimesScaler]
  norm_num

/-- C4 (amended): for square planar geometry, distances in the UI range (0, 4]
and positive ligand strength, the energies are ordered
`dx2y2 ≥ dxy ≥ dz2 ≥ dxz = dyz`, with `dxz` and `dyz` exactly equal, and
`splitting = dx2y2 - dxz` exactly. -/
theorem squarePlanar_ordering_and_splitting (d s : ℚ)
    (hd : 0 < d) (hd4 : d ≤ 4) (hs : 0 < s) :
    ∃ dx2y2 dxy dz2 dxz dyz sp,
      calculateSplitting (geomStr .squarePlanar) d s =
        some (.squarePlanar dx2y2 dxy dz2 dxz dyz sp) ∧
      dxy ≤ dx2y2 ∧ dz2 ≤ dxy ∧ dxz ≤ dz2 ∧ dxz = dyz ∧ sp = dx2y2 - dxz := by
  refine ⟨_, _, _, _, _, _, calculateSplitting_squarePlanar d s,
    ?_, ?_, ?_, rfl, by ring⟩ <;>
  · have h := baseTimesScaler_pos d s hd hd4 hs
    nlinarith

theorem squarePlanar_ordering_and_splitting_witness :
    (0:ℚ) < 3 ∧ (3:ℚ) ≤ 4 ∧ (0:ℚ) < 2 ∧
    ∃ dx2y2 dxy dz2 dxz dyz sp,
      calculateSplitting (geomStr .squarePlanar) 3 2 =
        some (.squarePlanar dx2y2 dxy dz2 dxz dyz sp) ∧
      dxy ≤ dx2y2 ∧ dz2 ≤ dxy ∧ dxz ≤ dz2 ∧ dxz = dyz ∧ sp = dx2y2 - dxz :=
  ⟨by norm_num, by norm_num, by norm_num,
    squarePlanar_ordering_and_splitting 3 2 (by norm_num) (by norm_num) (by norm_num)⟩

/-- C5 counterexample: at distance 5 (a positive distance, hence a valid input
per the claim) and ligand strength 1 the octahedral `t2g` field is negative,
so the non-negativity claim fails as stated. -/
theorem energies_negative_beyond_ui_range :
    calculateSplitting (geomStr .octahedral) 5 1 =
      some (.octahedral (-22/9375) (-2/1875) (-4/3125)) ∧
    (-2/1875 : ℚ) < 0 := by
  refine ⟨?_, by norm_num⟩
  rw [calculateSplitting_octahedral]
  simp only [Option.some.injEq, EnergyResult.octahedral.injEq, baseTimesScaler]
  norm_num

/-- C5 (amended): for every geometry, distances in the UI range (0, 4] and
positive ligand strength, every per-orbital energy field and the splitting
field of the returned `EnergyResult` is non-negative. -/
theorem all_energy_fields_nonneg (d s : ℚ)
    (hd : 0 < d) (hd4 : d ≤ 4) (hs : 0 < s) :
    (∃ eg t2g sp,
      calculateSplitting (geomStr .octahedral) d s = some (.octahedral eg t2g sp) ∧
      0 ≤ eg ∧ 0 ≤ t2g ∧ 0 ≤ sp) ∧
    (∃ t2 e sp,
      calculateSplitting (geomStr .tetrahedral) d s = some (.tetrahedral t2 e sp) ∧
      0 ≤ t2 ∧ 0 ≤ e ∧ 0 ≤ sp) ∧
    (∃ dx2y2 dxy dz2 dxz dyz sp,
      calculateSplitting (geomStr .squarePlanar) d s =
        some (.squarePlanar dx2y2 dxy dz2 dxz dyz sp) ∧
      0 ≤ dx2y2 ∧ 0 ≤ dxy ∧ 0 ≤ dz2 ∧ 0 ≤ dxz ∧ 0 ≤ dyz ∧ 0 ≤ sp) := by
  have h := baseTimesScaler_pos d s hd hd4 hs
  refine ⟨⟨_, _, _, calculateSplitting_octahedral d s, ?_, ?_, ?_⟩,
    ⟨_, _, _, calculateSplitting_tetrahedral d s, ?_, ?_, ?_⟩,
    ⟨_, _, _, _, _, _, calculateSplitting_squarePlanar d s,
      ?_, ?_, ?_, ?_, ?_, ?_⟩⟩ <;> nlinarith

theorem all_energy_fields_nonneg_witness :
    (0:ℚ) < 2 ∧ (2:ℚ) ≤ 4 ∧ (0:ℚ) < 1 ∧
    ((∃ eg t2g sp,
      calculateSplitting (geomStr .octahedral) 2 1 = some (.octahedral eg t2g sp) ∧
      0 ≤ eg ∧ 0 ≤ t2g ∧ 0 ≤ sp) ∧
    (∃ t2 e sp,
      calculateSplitting (geomStr .tetrahedral) 2 1 = some (.tetrahedral t2 e sp) ∧
      0 ≤ t2 ∧ 0 ≤ e ∧ 0 ≤ sp) ∧
    (∃ dx2y2 dxy dz2 dxz dyz sp,
      calculateSplitting (geomStr .squarePlanar) 2 1 =
        some (.squarePlanar dx2y2 dxy dz2 dxz dyz sp) ∧
      0 ≤ dx2y2 ∧ 0 ≤ dxy ∧ 0 ≤ dz2 ∧ 0 ≤ dxz ∧ 0 ≤ dyz ∧ 0 ≤ sp)) :=
  ⟨by norm_num, by norm_num, by norm_num,
    all_energy_fields_nonneg 2 1 (by norm_num) (by norm_num) (by norm_num)⟩

/-- The distance-dependent factor `(1/d³)·scaler` is strictly decreasing on the
UI distance range (0, 4]. -/
lemma distance_core_strictAnti (d₁ d₂ : ℚ)
    (h₁ : 0 < d₁) (h₁₂ : d₁ < d₂) (h₂ : d₂ ≤ 4) :
    (1.0 / d₂ ^ 3) * (0.05 + (4.0 - d₂) / 3.0 * 0.95) <
      (1.0 / d₁ ^ 3) * (0.05 + (4.0 - d₁) / 3.0 * 0.95) := by
  have hd₂ : 0 < d₂ := h₁.trans h₁₂
  have hne₁ : d₁ ≠ 0 := ne_of_gt h₁
  have hne₂ : d₂ ≠ 0 := ne_of_gt hd₂
  have e₁ : (1.0 / d₁ ^ 3) * (0.05 + (4.0 - d₁) / 3.0 * 0.95) =
      (79 - 19 * d₁) / (60 * d₁ ^ 3) := by
    field_simp
    ring
  have e₂ : (1.0 / d₂ ^ 3) * (0.05 + (4.0 - d₂) / 3.0 * 0.95) =
      (79 - 19 * d₂) / (60 * d₂ ^ 3) := by
    field_simp
    ring
  rw [e₁, e₂, div_lt_div_iff₀ (by positivity) (by positivity)]
  have hba : 0 < d₂ - d₁ := by linarith
  have hab : 0 < d₁ * d₂ := mul_pos h₁ hd₂
  have key : 0 < 79 * (d₁ ^ 2 + d₁ * d₂ + d₂ ^ 2) - 19 * (d₁ * d₂) * (d₁ + d₂) := by
    nlinarith [sq_nonneg (d₁ - d₂)]
  nlinarith [mul_pos hba key]

/-- Holding ligand strength fixed, `base * distanceScaler` is strictly
decreasing in distance on the UI range (0, 4]. -/
lemma baseTimesScaler_lt_of_distance_lt (d₁ d₂ s : ℚ)
    (h₁ : 0 < d₁) (h₁₂ : d₁ < d₂) (h₂ : d₂ ≤ 4) (hs : 0 < s) :
    baseTimesScaler d₂ s < baseTimesScaler d₁ s := by
  unfold baseTimesScaler
  rw [mul_assoc, mul_assoc]
  exact mul_lt_mul_of_pos_left (distance_core_strictAnti d₁ d₂ h₁ h₁₂ h₂) hs

/-- Holding distance fixed inside the UI range (0, 4], `base * distanceScaler`
is strictly increasing in ligand strength. -/
lemma baseTimesScaler_lt_of_strength_lt (d s₁ s₂ : ℚ)
    (hd : 0 < d) (hd4 : d ≤ 4) (h : s₁ < s₂) :
    baseTimesScaler d s₁ < baseTimesScaler d s₂ := by
  unfold baseTimesScaler
  have hc : (0:ℚ) < (1.0 / d ^ 3) * (0.05 + (4.0 - d) / 3.0 * 0.95) := by
    have h1 : (0:ℚ) < 1.0 / d ^ 3 := by positivity
    have h2 : (0:ℚ) < 0.05 + (4.0 - d) / 3.0 * 0.95 := by nlinarith
    exact mul_pos h1 h2
  rw [mul_assoc, mul_assoc]
  exact mul_lt_mul_of_pos_right h hc

/-- C6 counterexample: with ligand strength 3 held fixed, the octahedral
splitting at distance 5 is strictly below the splitting at distance 10, so
"splitting is strictly decreasing in distance" fails as stated (the claim
puts no upper bound on distance). -/
theorem splitting_not_decreasing_beyond_ui_range :
    calculateSplitting (geomStr .octahedral) 5 3 =
      some (.octahedral (-22/3125) (-2/625) (-12/3125)) ∧
    calculateSplitting (geomStr .octahedral) 10 3 =
      some (.octahedral (-1221/200000) (-111/40000) (-333/100000)) ∧
    (-12/3125 : ℚ) < -333/100000 := by
  refine ⟨?_, ?_, by norm_num⟩ <;>
  · rw [calculateSplitting_octahedral]
    simp only [Option.some.injEq, EnergyResult.octahedral.injEq, baseTimesScaler]
    norm_num

/-- C6 (amended): on the UI distance range (0, 4], for every geometry, the
splitting returned by `calculateSplitting` is strictly decreasing in distance
with ligand strength fixed, and strictly increasing in ligand strength with
distance fixed. -/
theorem splitting_monotonic (g : GeometryType) (d₁ d₂ d s s₁ s₂ : ℚ)
    (hd₁ : 0 < d₁) (h₁₂ : d₁ < d₂) (hd₂4 : d₂ ≤ 4) (hs : 0 < s)
    (hd : 0 < d) (hd4 : d ≤ 4) (hs₁₂ : s₁ < s₂) :
    (∃ r₁ r₂, calculateSplitting (geomStr g) d₁ s = some r₁ ∧
      calculateSplitting (geomStr g) d₂ s = some r₂ ∧
      r₂.splittingValue < r₁.splittingValue) ∧
    (∃ q₁ q₂, calculateSplitting (geomStr g) d s₁ = some q₁ ∧
      calculateSplitting (geomStr g) d s₂ = some q₂ ∧
      q₁.splittingValue < q₂.splittingValue) := by
  have hdist := baseTimesScaler_lt_of_distance_lt d₁ d₂ s hd₁ h₁₂ hd₂4 hs
  have hstr := baseTimesScaler_lt_of_strength_lt d s₁ s₂ hd hd4 hs₁₂
  cases g
  case octahedral =>
    exact ⟨⟨_, _, calculateSplitting_octahedral d₁ s,
        calculateSplitting_octahedral d₂ s, by
          simp only [EnergyResult.splittingValue]; linarith⟩,
      ⟨_, _, calculateSplitting_octahedral d s₁,
        calculateSplitting_octahedral d s₂, by
          simp only [EnergyResult.splittingValue]; linarith⟩⟩
  case tetrahedral =>
    exact ⟨⟨_, _, calculateSplitting_tetrahedral d₁ s,
        calculateSplitting_tetrahedral d₂ s, by
          simp only [EnergyResult.splittingValue]; linarith⟩,
      ⟨_, _, calculateSplitting_tetrahedral d s₁,
        calculateSplitting_tetrahedral d s₂, by
          simp only [EnergyResult.splittingValue]; linarith⟩⟩
  case squarePlanar =>
    exact ⟨⟨_, _, calculateSplitting_squarePlanar d₁ s,
        calculateSplitting_squarePlanar d₂ s, by
          simp only [EnergyResult.splittingValue]; linarith⟩,
      ⟨_, _, calculateSplitting_squarePlanar d s₁,
        calculateSplitting_squarePlanar d s₂, by
          simp only [EnergyResult.splittingValue]; linarith⟩⟩

theorem splitting_monotonic_witness :
    (0:ℚ) < 2 ∧ (2:ℚ) < 3 ∧ (3:ℚ) ≤ 4 ∧ (0:ℚ) < 6 ∧
    (0:ℚ) < 2 ∧ (2:ℚ) ≤ 4 ∧ (1:ℚ) < 2 ∧
    ((∃ r₁ r₂, calculateSplitting (geomStr .octahedral) 2 6 = some r₁ ∧
      calculateSplitting (geomStr .octahedral) 3 6 = some r₂ ∧
      r₂.splittingValue < r₁.splittingValue) ∧
    (∃ q₁ q₂, calculateSplitting (geomStr .octahedral) 2 1 = some q₁ ∧
      calculateSplitting (geomStr .octahedral) 2 2 = some q₂ ∧
      q₁.splittingValue < q₂.splittingValue)) :=
  ⟨by norm_num, by norm_num, by norm_num, by norm_num, by norm_num, by norm_num,
    by norm_num,
    splitting_monotonic .octahedral 2 3 2 6 1 2 (by norm_num) (by norm_num)
      (by norm_num) (by norm_num) (by norm_num) (by norm_num) (by norm_num)⟩

/-- `getOctahedralPositions` from `MetalComplexScene`: six ligands on the
coordinate axes. -/
def getOctahedralPositions (distance : ℝ) : List (ℝ × ℝ × ℝ) :=
  [(distance, 0, 0), (-distance, 0, 0),
   (0, distance, 0), (0, -distance, 0),
   (0, 0, distance), (0, 0, -distance)]

/-- `getTetrahedralPositions` from `MetalComplexScene`: the four vertices
(1,1,1), (1,−1,−1), (−1,1,−1), (−1,−1,1) scaled by `distance / √3`. -/
noncomputable def getTetrahedralPositions (distance : ℝ) : List (ℝ × ℝ × ℝ) :=
  let scale := distance / Real.sqrt 3
  [(scale, scale, scale), (scale, -scale, -scale),
   (-scale, scale, -scale), (-scale, -scale, scale)]

/-- `getSquarePlanarPositions` from `MetalComplexScene`: four ligands on the
x and y axes. -/
def getSquarePlanarPositions (distance : ℝ) : List (ℝ × ℝ × ℝ) :=
  [(distance, 0, 0), (-distance, 0, 0),
   (0, distance, 0), (0, -distance, 0)]

/-- Euclidean norm of a 3D vector. -/
noncomputable def norm3 (p : ℝ × ℝ × ℝ) : ℝ :=
  Real.sqrt (p.1 ^ 2 + p.2.1 ^ 2 + p.2.2 ^ 2)

lemma norm3_mk (x y z : ℝ) : norm3 (x, y, z) = Real.sqrt (x ^ 2 + y ^ 2 + z ^ 2) :=
  rfl

/-- The norm of each tetrahedral vertex (any sign pattern with squares
`scale², scale², scale²`) equals the distance. -/
lemma sqrt_three_scale_sq (d : ℝ) (hd : 0 < d) :
    Real.sqrt ((d / Real.sqrt 3) ^ 2 + (d / Real.sqrt 3) ^ 2 +
      (d / Real.sqrt 3) ^ 2) = d := by
  have h3 : (Real.sqrt 3) ^ 2 = 3 := Real.sq_sqrt (by norm_num)
  have hne : Real.sqrt 3 ≠ 0 := by
    have : (0:ℝ) < Real.sqrt 3 := Real.sqrt_pos.mpr (by norm_num)
    exact ne_of_gt this
  have hsum : (d / Real.sqrt 3) ^ 2 + (d / Real.sqrt 3) ^ 2 +
      (d / Real.sqrt 3) ^ 2 = d ^ 2 := by
    rw [div_pow, h3]
    ring
  rw [hsum, Real.sqrt_sq hd.le]

/-- C7: for every geometry the ligand positioning function returns exactly
6 (octahedral), 4 (tetrahedral) or 4 (square planar) vectors, each of
Euclidean norm equal to the distance, and the tetrahedral positions are the
four alternating-sign permutations of (1,1,1) scaled by `distance / √3`. -/
theorem ligand_positions_counts_and_norms (d : ℝ) (hd : 0 < d) :
    (getOctahedralPositions d).length = 6 ∧
    (getTetrahedralPositions d).length = 4 ∧
    (getSquarePlanarPositions d).length = 4 ∧
    (∀ p ∈ getOctahedralPositions d, norm3 p = d) ∧
    (∀ p ∈ getTetrahedralPositions d, norm3 p = d) ∧
    (∀ p ∈ getSquarePlanarPositions d, norm3 p = d) ∧
    getTetrahedralPositions d =
      [(d / Real.sqrt 3, d / Real.sqrt 3, d / Real.sqrt 3),
       (d / Real.sqrt 3, -(d / Real.sqrt 3), -(d / Real.sqrt 3)),
       (-(d / Real.sqrt 3), d / Real.sqrt 3, -(d / Real.sqrt 3)),
       (-(d / Real.sqrt 3), -(d / Real.sqrt 3), d / Real.sqrt 3)] := by
  have haxis : Real.sqrt (d ^ 2) = d := Real.sqrt_sq hd.le
  have h0 : (0:ℝ) ^ 2 = 0 := by norm_num
  refine ⟨rfl, rfl, rfl, ?_, ?_, ?_, rfl⟩
  · intro p hp
    simp only [getOctahedralPositions, List.mem_cons, List.not_mem_nil,
      or_false] at hp
    rcases hp with rfl | rfl | rfl | rfl | rfl | rfl <;>
    · rw [norm3_mk]
      simp only [neg_sq, h0, add_zero, zero_add]
      exact haxis
  · intro p hp
    simp only [getTetrahedralPositions, List.mem_cons, List.not_mem_nil,
      or_false] at hp
    rcases hp with rfl | rfl | rfl | rfl <;>
    · rw [norm3_mk]
      try simp only [neg_sq]
      exact sqrt_three_scale_sq d hd
  · intro p hp
    simp only [getSquarePlanarPositions, List.mem_cons, List.not_mem_nil,
      or_false] at hp
    rcases hp with rfl | rfl | rfl | rfl <;>
    · rw [norm3_mk]
      simp only [neg_sq, h0, add_zero, zero_add]
      exact haxis

theorem ligand_positions_counts_and_norms_witness :
    (0:ℝ) < 1 ∧
    ((getOctahedralPositions 1).length = 6 ∧
    (getTetrahedralPositions 1).length = 4 ∧
    (getSquarePlanarPositions 1).length = 4 ∧
    (∀ p ∈ getOctahedralPositions 1, norm3 p = 1) ∧
    (∀ p ∈ getTetrahedralPositions 1, norm3 p = 1) ∧
    (∀ p ∈ getSquarePlanarPositions 1, norm3 p = 1) ∧
    getTetrahedralPositions 1 =
      [((1:ℝ) / Real.sqrt 3, (1:ℝ) / Real.sqrt 3, (1:ℝ) / Real.sqrt 3),
       ((1:ℝ) / Real.sqrt 3, -((1:ℝ) / Real.sqrt 3), -((1:ℝ) / Real.sqrt 3)),
       (-((1:ℝ) / Real.sqrt 3), (1:ℝ) / Real.sqrt 3, -((1:ℝ) / Real.sqrt 3)),
       (-((1:ℝ) / Real.sqrt 3), -((1:ℝ) / Real.sqrt 3), (1:ℝ) / Real.sqrt 3)]) :=
  ⟨by norm_num, ligand_positions_counts_and_norms 1 (by norm_num)⟩

/-- The ligand-position selection in `MetalComplexScene`: octahedral and
tetrahedral are matched explicitly and every other geometry string falls into
the `else` branch, yielding the square planar positions. -/
noncomputable def sceneLigandPositions (geometryType : String) (distance : ℝ) :
    List (ℝ × ℝ × ℝ) :=
  if geometryType = "octahedral" then getOctahedralPositions distance
  else if geometryType = "tetrahedral" then getTetrahedralPositions distance
  else getSquarePlanarPositions distance

/-- C10: for every geometry string other than octahedral and tetrahedral —
including strings outside the `GeometryType` enumeration — the scene returns
the 4 square planar positions, never failing and never returning an empty
sequence; by contrast the energy model returns `none` on a geometry string
outside the enumeration. -/
theorem scene_falls_back_to_square_planar (g : String) (d : ℝ) (dq sq : ℚ)
    (h₁ : g ≠ "octahedral") (h₂ : g ≠ "tetrahedral") :
    sceneLigandPositions g d = getSquarePlanarPositions d ∧
    (sceneLigandPositions g d).length = 4 ∧
    sceneLigandPositions g d ≠ [] ∧
    (g ≠ "squarePlanar" → calculateSplitting g dq sq = none) := by
  have hscene : sceneLigandPositions g d = getSquarePlanarPositions d := by
    unfold sceneLigandPositions
    rw [if_neg h₁, if_neg h₂]
  refine ⟨hscene, ?_, ?_, ?_⟩
  · rw [hscene]; rfl
  · rw [hscene]; simp [getSquarePlanarPositions]
  · intro h₃
    unfold calculateSplitting
    rw [if_neg h₁, if_neg h₃, if_neg h₂]

theorem scene_falls_back_to_square_planar_witness :
    ("linear" ≠ "octahedral" ∧ "linear" ≠ "tetrahedral") ∧
    (sceneLigandPositions "linear" 2 = getSquarePlanarPositions 2 ∧
    (sceneLigandPositions "linear" 2).length = 4 ∧
    sceneLigandPositions "linear" 2 ≠ [] ∧
    ("linear" ≠ "squarePlanar" → calculateSplitting "linear" 2 5 = none)) :=
  ⟨⟨by decide, by decide⟩,
    scene_falls_back_to_square_planar "linear" 2 2 5 (by decide) (by decide)⟩

/-- The `OrbitalType` union: the five d-orbital shapes accepted by
`makeDOrbitalGeometry`. -/
inductive OrbitalType where
  | dz2
  | dx2y2
  | dxy
  | dxz
  | dyz
deriving DecidableEq

/-- One vertex of the parametric surface built by `makeDOrbitalGeometry` in
`MetalComplexScene`: grid coordinates (u, v) are mapped to spherical angles
θ = π·u, φ = 2π·v, the angular amplitude f is selected by a switch on the
orbital type, and the vertex is (r·sinθ·cosφ, r·sinθ·sinφ, r·cosθ) with
r = |f|·scale. -/
noncomputable def makeDOrbitalPoint (t : OrbitalType) (scale u v : ℝ) :
    ℝ × ℝ × ℝ :=
  let theta := Real.pi * u
  let phi := 2 * Real.pi * v
  let f : ℝ :=
    match t with
    | .dz2 => 3 * Real.cos theta ^ 2 - 1
    | .dx2y2 => Real.sin theta ^ 2 * Real.cos (2 * phi)
    | .dxy => Real.sin theta ^ 2 * Real.sin (2 * phi)
    | .dxz => Real.sin (2 * theta) * Real.cos phi
    | .dyz => Real.sin (2 * theta) * Real.sin phi
  let r := |f| * scale
  (r * Real.sin theta * Real.cos phi, r * Real.sin theta * Real.sin phi,
    r * Real.cos theta)

/-- The closed-form angular amplitude of each orbital, as listed in the
specification (θ colatitude, φ azimuth). -/
noncomputable def angularAmplitude : OrbitalType → ℝ → ℝ → ℝ
  | .dz2, theta, _ => 3 * Real.cos theta ^ 2 - 1
  | .dx2y2, theta, phi => Real.sin theta ^ 2 * Real.cos (2 * phi)
  | .dxy, theta, phi => Real.sin theta ^ 2 * Real.sin (2 * phi)
  | .dxz, theta, phi => Real.sin (2 * theta) * Real.cos phi
  | .dyz, theta, phi => Real.sin (2 * theta) * Real.sin phi

/-- The norm of a spherical-coordinate point with non-negative radius is the
radius. -/
lemma norm3_spherical (r theta phi : ℝ) (hr : 0 ≤ r) :
    norm3 (r * Real.sin theta * Real.cos phi, r * Real.sin theta * Real.sin phi,
      r * Real.cos theta) = r := by
  rw [norm3_mk]
  have hsum : (r * Real.sin theta * Real.cos phi) ^ 2 +
      (r * Real.sin theta * Real.sin phi) ^ 2 + (r * Real.cos theta) ^ 2 =
      r ^ 2 * (Real.sin theta ^ 2 * (Real.sin phi ^ 2 + Real.cos phi ^ 2) +
        Real.cos theta ^ 2) := by ring
  rw [hsum, Real.sin_sq_add_cos_sq, mul_one, Real.sin_sq_add_cos_sq, mul_one]
  exact Real.sqrt_sq hr

/-- C9: for every orbital type, positive scale and grid point (u, v), the
surface generator produces the vertex (r·sinθ·cosφ, r·sinθ·sinφ, r·cosθ) with
θ = π·u, φ = 2π·v and r = |f(θ, φ)|·scale, where f is the closed-form angular
amplitude of the orbital; consequently, for dz2, any two grid points with
equal θ (equal u) and differing φ have equal radius. -/
theorem orbital_surface_vertex_and_dz2_symmetry (t : OrbitalType)
    (scale u v w : ℝ) (hs : 0 < scale) :
    makeDOrbitalPoint t scale u v =
      (|angularAmplitude t (Real.pi * u) (2 * Real.pi * v)| * scale *
          Real.sin (Real.pi * u) * Real.cos (2 * Real.pi * v),
        |angularAmplitude t (Real.pi * u) (2 * Real.pi * v)| * scale *
          Real.sin (Real.pi * u) * Real.sin (2 * Real.pi * v),
        |angularAmplitude t (Real.pi * u) (2 * Real.pi * v)| * scale *
          Real.cos (Real.pi * u)) ∧
    norm3 (makeDOrbitalPoint .dz2 scale u v) =
      norm3 (makeDOrbitalPoint .dz2 scale u w) := by
  constructor
  · cases t <;> rfl
  · have hr : 0 ≤ |3 * Real.cos (Real.pi * u) ^ 2 - 1| * scale :=
      mul_nonneg (abs_nonneg _) hs.le
    have e₁ : makeDOrbitalPoint .dz2 scale u v =
        (|3 * Real.cos (Real.pi * u) ^ 2 - 1| * scale * Real.sin (Real.pi * u) *
            Real.cos (2 * Real.pi * v),
          |3 * Real.cos (Real.pi * u) ^ 2 - 1| * scale * Real.sin (Real.pi * u) *
            Real.sin (2 * Real.pi * v),
          |3 * Real.cos (Real.pi * u) ^ 2 - 1| * scale * Real.cos (Real.pi * u)) :=
      rfl
    have e₂ : makeDOrbitalPoint .dz2 scale u w =
        (|3 * Real.cos (Real.pi * u) ^ 2 - 1| * scale * Real.sin (Real.pi * u) *
            Real.cos (2 * Real.pi * w),
          |3 * Real.cos (Real.pi * u) ^ 2 - 1| * scale * Real.sin (Real.pi * u) *
            Real.sin (2 * Real.pi * w),
          |3 * Real.cos (Real.pi * u) ^ 2 - 1| * scale * Real.cos (Real.pi * u)) :=
      rfl
    rw [e₁, e₂, norm3_spherical _ _ _ hr, norm3_spherical _ _ _ hr]

theorem orbital_surface_vertex_and_dz2_symmetry_witness :
    (0:ℝ) < 1 ∧
    (makeDOrbitalPoint .dz2 1 0 0 =
      (|angularAmplitude .dz2 (Real.pi * 0) (2 * Real.pi * 0)| * 1 *
          Real.sin (Real.pi * 0) * Real.cos (2 * Real.pi * 0),
        |angularAmplitude .dz2 (Real.pi * 0) (2 * Real.pi * 0)| * 1 *
          Real.sin (Real.pi * 0) * Real.sin (2 * Real.pi * 0),
        |angularAmplitude .dz2 (Real.pi * 0) (2 * Real.pi * 0)| * 1 *
          Real.cos (Real.pi * 0)) ∧
    norm3 (makeDOrbitalPoint .dz2 1 0 0) = norm3 (makeDOrbitalPoint .dz2 1 0 1)) :=
  ⟨by norm_num, orbital_surface_vertex_and_dz2_symmetry .dz2 1 0 0 1 (by norm_num)⟩

/-- Vertical placement of one bar from the `EnergyLevel` component: the
container height is clamped to at least 80, the energy is shifted by the
minimum and normalized against the energy scale (floored at 0.001), the
usable height is the padded height floored at 36, and the resulting pixel
position is capped into [top, top + usable]. -/
def energyLevelY (energy minEnergyValue energyScale baselinePadding
    containerHeightProp topPaddingPx bottomPaddingPx : ℚ) : ℚ :=
  let containerHeight := max containerHeightProp 80
  let shiftedEnergy := max 0 (energy - minEnergyValue)
  let normalizedEnergy :=
    min 1 ((shiftedEnergy + baselinePadding) / max energyScale 0.001)
  let usableHeight := max (containerHeight - topPaddingPx - bottomPaddingPx) 36
  let yPositionPx := topPaddingPx + (1 - normalizedEnergy) * usableHeight
  max topPaddingPx (min (topPaddingPx + usableHeight) yPositionPx)

/-- Top padding passed by `OctahedralDiagram` to each `EnergyLevel`. -/
def octTopPaddingPx (diagramHeight : ℚ) : ℚ :=
  min 44 (max 16 (diagramHeight * 0.1))

/-- Bottom padding passed by `OctahedralDiagram` to each `EnergyLevel`. -/
def octBottomPaddingPx (diagramHeight : ℚ) : ℚ :=
  min 72 (max 24 (diagramHeight * 0.18))

/-- The `energyStats` memo for the octahedral case: from the two energy values
it derives (minEnergy, baselinePadding, energyScale). -/
def energyStatsOct (eg t2g : ℚ) : ℚ × ℚ × ℚ :=
  let minEnergy := min eg t2g
  let maxEnergy := max eg t2g
  let range := max (maxEnergy - minEnergy) 0.001
  let baselinePadding := max (range * 0.1) 0.15
  let topPadding := max (range * 0.2) 0.3
  (minEnergy, baselinePadding, range + baselinePadding + topPadding)

/-- The diagram paddings always leave at least the minimum usable height of 36
inside the clamped container. -/
lemma oct_padding_bound (h : ℚ) :
    octTopPaddingPx h + octBottomPaddingPx h + 36 ≤ max h 80 := by
  simp only [octTopPaddingPx, octBottomPaddingPx, min_def, max_def]
  split_ifs <;> linarith

lemma energyLevelY_ge_top (e m sc bp h t b : ℚ) :
    t ≤ energyLevelY e m sc bp h t b := by
  simp only [energyLevelY]
  exact le_max_left _ _

lemma energyLevelY_le_bound (e m sc bp h t b : ℚ)
    (hb : t + b + 36 ≤ max h 80) :
    energyLevelY e m sc bp h t b ≤ max h 80 - b := by
  simp only [energyLevelY]
  have husable : max (max h 80 - t - b) 36 = max h 80 - t - b :=
    max_eq_left (by linarith)
  rw [husable]
  apply max_le (by linarith)
  exact le_trans (min_le_left _ _) (le_of_eq (by ring))

lemma energyLevelY_antitone (e₁ e₂ m sc bp h t b : ℚ) (hle : e₂ ≤ e₁) :
    energyLevelY e₁ m sc bp h t b ≤ energyLevelY e₂ m sc bp h t b := by
  simp only [energyLevelY]
  have hD : (0:ℚ) < max sc 0.001 :=
    lt_of_lt_of_le (by norm_num) (le_max_right sc 0.001)
  have hu : (0:ℚ) ≤ max (max h 80 - t - b) 36 :=
    le_trans (by norm_num) (le_max_right _ 36)
  have hdiv : (max 0 (e₂ - m) + bp) / max sc 0.001 ≤
      (max 0 (e₁ - m) + bp) / max sc 0.001 := by
    have hshift : max 0 (e₂ - m) ≤ max 0 (e₁ - m) :=
      max_le_max le_rfl (by linarith)
    exact (div_le_div_iff_of_pos_right hD).mpr (by linarith)
  have hmin : min 1 ((max 0 (e₂ - m) + bp) / max sc 0.001) ≤
      min 1 ((max 0 (e₁ - m) + bp) / max sc 0.001) := min_le_min le_rfl hdiv
  apply max_le_max le_rfl
  apply min_le_min le_rfl
  have hfac : 1 - min 1 ((max 0 (e₁ - m) + bp) / max sc 0.001) ≤
      1 - min 1 ((max 0 (e₂ - m) + bp) / max sc 0.001) := by linarith
  have hmul := mul_le_mul_of_nonneg_right hfac hu
  linarith

/-- C8: for any energies of a finite well-formed `EnergyResult` — in
particular those produced by the extreme inputs distance 1 and ligand
strength 10 — with the octahedral diagram paddings on a container of height
at least 80, every bar position lies within
[topPadding, containerHeight − bottomPadding], and a bar with strictly higher
energy never gets a strictly larger (lower on screen) vertical position than
a bar with lower energy. -/
theorem energy_level_bounds_and_visual_order (e₁ e₂ m sc bp h : ℚ)
    (h80 : 80 ≤ h) :
    octTopPaddingPx h ≤
      energyLevelY e₁ m sc bp h (octTopPaddingPx h) (octBottomPaddingPx h) ∧
    energyLevelY e₁ m sc bp h (octTopPaddingPx h) (octBottomPaddingPx h) ≤
      h - octBottomPaddingPx h ∧
    (e₂ < e₁ →
      energyLevelY e₁ m sc bp h (octTopPaddingPx h) (octBottomPaddingPx h) ≤
        energyLevelY e₂ m sc bp h (octTopPaddingPx h) (octBottomPaddingPx h)) := by
  refine ⟨energyLevelY_ge_top _ _ _ _ _ _ _, ?_, fun hlt =>
    energyLevelY_antitone _ _ _ _ _ _ _ _ hlt.le⟩
  have hbound := energyLevelY_le_bound e₁ m sc bp h (octTopPaddingPx h)
    (octBottomPaddingPx h) (oct_padding_bound h)
  rwa [max_eq_left h80] at hbound

theorem energy_level_bounds_and_visual_order_witness :
    (80:ℚ) ≤ 300 ∧
    (octTopPaddingPx 300 ≤
      energyLevelY 11 (energyStatsOct 11 5).1 (energyStatsOct 11 5).2.2
        (energyStatsOct 11 5).2.1 300 (octTopPaddingPx 300) (octBottomPaddingPx 300) ∧
    energyLevelY 11 (energyStatsOct 11 5).1 (energyStatsOct 11 5).2.2
        (energyStatsOct 11 5).2.1 300 (octTopPaddingPx 300) (octBottomPaddingPx 300) ≤
      300 - octBottomPaddingPx 300 ∧
    ((5:ℚ) < 11 →
      energyLevelY 11 (energyStatsOct 11 5).1 (energyStatsOct 11 5).2.2
          (energyStatsOct 11 5).2.1 300 (octTopPaddingPx 300) (octBottomPaddingPx 300) ≤
        energyLevelY 5 (energyStatsOct 11 5).1 (energyStatsOct 11 5).2.2
          (energyStatsOct 11 5).2.1 300 (octTopPaddingPx 300) (octBottomPaddingPx 300))) :=
  ⟨by norm_num,
    energy_level_bounds_and_visual_order 11 5 (energyStatsOct 11 5).1
      (energyStatsOct 11 5).2.2 (energyStatsOct 11 5).2.1 300 (by norm_num)⟩
